import Mathlib

/-!
Shallow embedding of the rotary-switch decoder from the `switches` package
(`rotaryHandler`, `buttonHandler`, `NewRotarySwitch` and the configuration
setters).  The bounded Go channel is modelled as a `List` of events together
with its capacity `channelSize`; enqueueing appends to the list.  Go `int`
is modelled as `Int` (position arithmetic is signed), the 4-bit shift state
as `Nat` with explicit bitwise operations, and `gpio.Level` as `Bool`
(`true` = `gpio.High`).  Edges are delivered to the model directly, one
function call per observed pin edge, with the sampled levels as arguments.
-/

namespace Switches

/-- The event constants of the `switches` package. -/
inductive RotarySwitchValue where
  | DirectionCCW
  | DirectionCW
  | ButtonPress
  | ButtonRelease
deriving DecidableEq, Repr

/-- `const stateInvalid = 0xf`. -/
def stateInvalid : Nat := 0xf

/-- The fields of `RotarySwitch` that the decoding logic touches.
The pin handles and the `terminating` flag are omitted: edges are delivered
to the model directly, one call per observed edge. -/
structure RotarySwitch where
  channelSize : Nat
  ch : List RotarySwitchValue
  position : Int
  wrap_position : Bool
  max_positions : Int
  state : Nat
  last_button : Bool
  loose : Bool
deriving DecidableEq, Repr

/-- The shift-register update at the top of `rotaryHandler`'s loop body:
`sw.state = (sw.state & 0x03) << 2`, then `|= 0x01` when the data pin reads
high and `|= 0x02` when the state pin reads high. -/
def shiftState (state : Nat) (data st : Bool) : Nat :=
  let s1 := (state &&& 0x03) <<< 2
  let s2 := if data then s1 ||| 0x01 else s1
  if st then s2 ||| 0x02 else s2

/-- The clockwise position update of `rotaryHandler`:
increment, then on reaching `max_positions` wrap to `0` or clamp to
`max_positions` itself. -/
def cwPosition (sw : RotarySwitch) : Int :=
  if sw.position + 1 ≥ sw.max_positions then
    if sw.wrap_position then 0 else sw.max_positions
  else sw.position + 1

/-- The counter-clockwise position update of `rotaryHandler`:
decrement, then on dropping below `0` wrap to `max_positions - 1` or clamp
to `0`. -/
def ccwPosition (sw : RotarySwitch) : Int :=
  if sw.position - 1 < 0 then
    if sw.wrap_position then sw.max_positions - 1 else 0
  else sw.position - 1

/-- One iteration of `rotaryHandler`'s loop for an observed state-pin edge,
given the sampled data-pin and state-pin levels.  The shift register is
advanced first; if the channel is full the iteration `continue`s (nothing
else changes); otherwise the shifted value is classified and a confirmed
step updates the position, enqueues its event and resets the shift
register to `stateInvalid`. -/
def rotaryEdge (sw : RotarySwitch) (data st : Bool) : RotarySwitch :=
  let sw1 : RotarySwitch := { sw with state := shiftState sw.state data st }
  if sw1.ch.length = sw1.channelSize then
    sw1
  else if sw1.state = 0x06 ∨ (sw1.loose = true ∧ sw1.state = 0x07) then
    { sw1 with
      position := cwPosition sw1
      ch := sw1.ch ++ [RotarySwitchValue.DirectionCW]
      state := stateInvalid }
  else if sw1.state = 0x03 then
    { sw1 with
      position := ccwPosition sw1
      ch := sw1.ch ++ [RotarySwitchValue.DirectionCCW]
      state := stateInvalid }
  else
    sw1

/-- One iteration of `buttonHandler`'s loop for an observed button-pin edge,
given the sampled button level.  The capacity check guards the whole body:
when the channel is full neither an event nor the `last_button` update
happens. -/
def buttonEdge (sw : RotarySwitch) (level : Bool) : RotarySwitch :=
  if sw.ch.length < sw.channelSize then
    let sw1 : RotarySwitch :=
      if level = true ∧ sw.last_button = false then
        { sw with ch := sw.ch ++ [RotarySwitchValue.ButtonRelease] }
      else if level = false ∧ sw.last_button = true then
        { sw with ch := sw.ch ++ [RotarySwitchValue.ButtonPress] }
      else
        sw
    { sw1 with last_button := level }
  else
    sw

/-- `NewRotarySwitch`: channel capacity 16, wrap and loose mode default to
true, shift state starts at the sentinel, last button level at low,
position at the Go zero value `0`. -/
def NewRotarySwitch (maxPositions : Int) : RotarySwitch :=
  { channelSize := 16
    ch := []
    position := 0
    wrap_position := true
    max_positions := maxPositions
    state := stateInvalid
    last_button := false
    loose := true }

/-- `SetWrap`. -/
def SetWrap (sw : RotarySwitch) (mode : Bool) : RotarySwitch :=
  { sw with wrap_position := mode }

/-- `SetLooseMode`. -/
def SetLooseMode (sw : RotarySwitch) (mode : Bool) : RotarySwitch :=
  { sw with loose := mode }

/-- Feed a list of `(data, state)` level samples, one state-pin edge each,
through `rotaryEdge`. -/
def runRotary (sw : RotarySwitch) (samples : List (Bool × Bool)) : RotarySwitch :=
  samples.foldl (fun s p => rotaryEdge s p.1 p.2) sw

/-- The two state-pin edges of one clockwise turn, as `(data, state)` level
samples: first edge state low / data high, second edge state high / data
low (the canonical `1101 0110` table in `rotaryHandler`). -/
def cwTurn : List (Bool × Bool) := [(true, false), (false, true)]

/-- The two state-pin edges of one counter-clockwise turn: first edge state
low / data low, second edge state high / data high (`1100 0011`). -/
def ccwTurn : List (Bool × Bool) := [(false, false), (true, true)]

/-- A concrete switch with room in its channel and `0b01` already shifted
in, so the next state-high edge completes a clockwise pattern. -/
def swReady : RotarySwitch :=
  { channelSize := 16
    ch := []
    position := 5
    wrap_position := true
    max_positions := 24
    state := 0x01
    last_button := false
    loose := true }

/-- A concrete switch whose event channel is at capacity, with `0b01`
already shifted in (the next state-high / data-low edge would complete
`0b0110`) and last button level high. -/
def swAtCapacity : RotarySwitch :=
  { channelSize := 1
    ch := [RotarySwitchValue.DirectionCW]
    position := 0
    wrap_position := true
    max_positions := 24
    state := 0x01
    last_button := true
    loose := true }

/-- `rotaryEdge` on a full channel only shifts the register. -/
lemma rotaryEdge_full (sw : RotarySwitch) (d s : Bool)
    (h : sw.ch.length = sw.channelSize) :
    rotaryEdge sw d s = { sw with state := shiftState sw.state d s } := by
  simp only [rotaryEdge]
  rw [if_pos h]

/-- `rotaryEdge` on a non-full channel with a (possibly loose) clockwise
pattern: enqueue `DirectionCW`, apply the clockwise position update, reset
the shift register. -/
lemma rotaryEdge_cw (sw : RotarySwitch) (d s : Bool)
    (hne : sw.ch.length ≠ sw.channelSize)
    (hp : shiftState sw.state d s = 0x06 ∨
      (sw.loose = true ∧ shiftState sw.state d s = 0x07)) :
    rotaryEdge sw d s = { sw with
      position := cwPosition sw
      ch := sw.ch ++ [RotarySwitchValue.DirectionCW]
      state := stateInvalid } := by
  simp only [rotaryEdge]
  rw [if_neg hne, if_pos hp]
  rfl

/-- `rotaryEdge` on a non-full channel with the counter-clockwise pattern:
enqueue `DirectionCCW`, apply the counter-clockwise position update, reset
the shift register. -/
lemma rotaryEdge_ccw (sw : RotarySwitch) (d s : Bool)
    (hne : sw.ch.length ≠ sw.channelSize)
    (hncw : ¬ (shiftState sw.state d s = 0x06 ∨
      (sw.loose = true ∧ shiftState sw.state d s = 0x07)))
    (hp : shiftState sw.state d s = 0x03) :
    rotaryEdge sw d s = { sw with
      position := ccwPosition sw
      ch := sw.ch ++ [RotarySwitchValue.DirectionCCW]
      state := stateInvalid } := by
  simp only [rotaryEdge]
  rw [if_neg hne, if_neg hncw, if_pos hp]
  rfl

/-- `rotaryEdge` on a non-full channel with an unrecognized shifted value
only shifts the register: no event, no reset. -/
lemma rotaryEdge_noise (sw : RotarySwitch) (d s : Bool)
    (hne : sw.ch.length ≠ sw.channelSize)
    (hncw : ¬ (shiftState sw.state d s = 0x06 ∨
      (sw.loose = true ∧ shiftState sw.state d s = 0x07)))
    (hnccw : shiftState sw.state d s ≠ 0x03) :
    rotaryEdge sw d s = { sw with state := shiftState sw.state d s } := by
  simp only [rotaryEdge]
  rw [if_neg hne, if_neg hncw, if_neg hnccw]

/-- Under wrap, with the position inside its range, the clockwise position
update is addition modulo `max_positions`. -/
lemma cwPosition_wrap (sw : RotarySwitch) (hw : sw.wrap_position = true)
    (h0 : 0 ≤ sw.position) (h1 : sw.position < sw.max_positions) :
    cwPosition sw = (sw.position + 1) % sw.max_positions := by
  unfold cwPosition
  rw [hw]
  by_cases hge : sw.position + 1 ≥ sw.max_positions
  · have he : sw.position + 1 = sw.max_positions := by omega
    rw [if_pos hge, if_pos rfl, he, Int.emod_self]
  · rw [if_neg hge, Int.emod_eq_of_lt (by omega) (by omega)]

/-- Under wrap, with the position inside its range, the counter-clockwise
position update is subtraction modulo `max_positions`. -/
lemma ccwPosition_wrap (sw : RotarySwitch) (hw : sw.wrap_position = true)
    (h0 : 0 ≤ sw.position) (h1 : sw.position < sw.max_positions) :
    ccwPosition sw = (sw.position - 1) % sw.max_positions := by
  unfold ccwPosition
  rw [hw]
  by_cases hlt : sw.position - 1 < 0
  · have he : sw.position = 0 := by omega
    rw [if_pos hlt, if_pos rfl, he]
    have h := @Int.add_mul_emod_self_left (-1 : Int) sw.max_positions 1
    rw [mul_one] at h
    have e : (0 : Int) - 1 = -1 := by ring
    rw [e, ← h]
    have e2 : (-1 : Int) + sw.max_positions = sw.max_positions - 1 := by ring
    rw [e2, Int.emod_eq_of_lt (by omega) (by omega)]
  · rw [if_neg hlt, Int.emod_eq_of_lt (by omega) (by omega)]

/-- `rotaryEdge` never changes the wrap flag or the position bound. -/
lemma rotaryEdge_config (sw : RotarySwitch) (d s : Bool) :
    (rotaryEdge sw d s).wrap_position = sw.wrap_position ∧
    (rotaryEdge sw d s).max_positions = sw.max_positions := by
  simp only [rotaryEdge]
  split_ifs <;> exact ⟨rfl, rfl⟩

/-- Under wrap, one `rotaryEdge` step keeps the position inside
`[0, max_positions)`. -/
lemma rotaryEdge_position_bounds (sw : RotarySwitch) (d s : Bool)
    (hw : sw.wrap_position = true) (hm : 0 < sw.max_positions)
    (h0 : 0 ≤ sw.position) (h1 : sw.position < sw.max_positions) :
    0 ≤ (rotaryEdge sw d s).position ∧
    (rotaryEdge sw d s).position < sw.max_positions := by
  by_cases hfull : sw.ch.length = sw.channelSize
  · rw [rotaryEdge_full sw d s hfull]
    exact ⟨h0, h1⟩
  by_cases hcw : shiftState sw.state d s = 0x06 ∨
      (sw.loose = true ∧ shiftState sw.state d s = 0x07)
  · rw [rotaryEdge_cw sw d s hfull hcw]
    show 0 ≤ cwPosition sw ∧ cwPosition sw < sw.max_positions
    unfold cwPosition
    rw [hw]
    split_ifs with hge htr
    · omega
    · exact absurd rfl htr
    · omega
  by_cases hccw : shiftState sw.state d s = 0x03
  · rw [rotaryEdge_ccw sw d s hfull hcw hccw]
    show 0 ≤ ccwPosition sw ∧ ccwPosition sw < sw.max_positions
    unfold ccwPosition
    rw [hw]
    split_ifs with hlt htr
    · omega
    · exact absurd rfl htr
    · omega
  · rw [rotaryEdge_noise sw d s hfull hcw hccw]
    exact ⟨h0, h1⟩

/-- Under wrap, any sample sequence keeps the position inside
`[0, max_positions)` and the bound itself unchanged. -/
lemma runRotary_bounds (samples : List (Bool × Bool)) :
    ∀ sw : RotarySwitch, sw.wrap_position = true → 0 < sw.max_positions →
      0 ≤ sw.position → sw.position < sw.max_positions →
      (runRotary sw samples).max_positions = sw.max_positions ∧
      0 ≤ (runRotary sw samples).position ∧
      (runRotary sw samples).position < sw.max_positions := by
  induction samples with
  | nil =>
    intro sw _ _ h0 h1
    exact ⟨rfl, h0, h1⟩
  | cons p rest ih =>
    intro sw hw hm h0 h1
    have hb := rotaryEdge_position_bounds sw p.1 p.2 hw hm h0 h1
    have hc := rotaryEdge_config sw p.1 p.2
    have hrun : runRotary sw (p :: rest) = runRotary (rotaryEdge sw p.1 p.2) rest := rfl
    rw [hrun]
    have := ih (rotaryEdge sw p.1 p.2) (hc.1.trans hw) (hc.2 ▸ hm)
      hb.1 (hc.2 ▸ hb.2)
    rw [hc.2] at this
    exact this

/-- An edge that changed the channel took an event branch, so it reset the
shift register to the sentinel. -/
lemma rotaryEdge_event_resets (sw : RotarySwitch) (d s : Bool)
    (h : (rotaryEdge sw d s).ch ≠ sw.ch) :
    (rotaryEdge sw d s).state = stateInvalid := by
  by_cases hfull : sw.ch.length = sw.channelSize
  · rw [rotaryEdge_full sw d s hfull] at h
    exact absurd rfl h
  by_cases hcw : shiftState sw.state d s = 0x06 ∨
      (sw.loose = true ∧ shiftState sw.state d s = 0x07)
  · rw [rotaryEdge_cw sw d s hfull hcw]
  by_cases hccw : shiftState sw.state d s = 0x03
  · rw [rotaryEdge_ccw sw d s hfull hcw hccw]
  · rw [rotaryEdge_noise sw d s hfull hcw hccw] at h
    exact absurd rfl h

/-- An edge taken from the sentinel shift state can never produce an event:
the shifted value has its top two bits set. -/
lemma rotaryEdge_from_sentinel_no_event (sw : RotarySwitch) (d s : Bool)
    (h : sw.state = stateInvalid) :
    (rotaryEdge sw d s).ch = sw.ch ∧ (rotaryEdge sw d s).position = sw.position := by
  have hncw : ¬ (shiftState sw.state d s = 0x06 ∨
      (sw.loose = true ∧ shiftState sw.state d s = 0x07)) := by
    rw [h]
    rintro (hx | ⟨_, hx⟩) <;> revert hx <;> cases d <;> cases s <;> decide
  have hnccw : shiftState sw.state d s ≠ 0x03 := by
    rw [h]; cases d <;> cases s <;> decide
  by_cases hfull : sw.ch.length = sw.channelSize
  · rw [rotaryEdge_full sw d s hfull]
    exact ⟨rfl, rfl⟩
  · rw [rotaryEdge_noise sw d s hfull hncw hnccw]
    exact ⟨rfl, rfl⟩

end Switches

/-- C1: for a state-pin edge processed while the channel is below capacity,
with wrap enabled and the position inside `[0, max_positions)`: a shifted
state of `0b0110` enqueues exactly one `DirectionCW` and the position
becomes `(position + 1) % max_positions`; a shifted state of `0b0011`
enqueues exactly one `DirectionCCW` and the position becomes
`(position - 1) % max_positions`. -/
theorem c1_canonical_steps (sw : Switches.RotarySwitch) (d s : Bool)
    (hcap : sw.ch.length < sw.channelSize)
    (hw : sw.wrap_position = true)
    (h0 : 0 ≤ sw.position) (h1 : sw.position < sw.max_positions) :
    (Switches.shiftState sw.state d s = 0x06 →
      (Switches.rotaryEdge sw d s).ch = sw.ch ++ [Switches.RotarySwitchValue.DirectionCW] ∧
      (Switches.rotaryEdge sw d s).position = (sw.position + 1) % sw.max_positions) ∧
    (Switches.shiftState sw.state d s = 0x03 →
      (Switches.rotaryEdge sw d s).ch = sw.ch ++ [Switches.RotarySwitchValue.DirectionCCW] ∧
      (Switches.rotaryEdge sw d s).position = (sw.position - 1) % sw.max_positions) := by
  have hne : sw.ch.length ≠ sw.channelSize := Nat.ne_of_lt hcap
  constructor
  · intro hs
    rw [Switches.rotaryEdge_cw sw d s hne (Or.inl hs)]
    exact ⟨rfl, Switches.cwPosition_wrap sw hw h0 h1⟩
  · intro hs
    have hncw : ¬ (Switches.shiftState sw.state d s = 0x06 ∨
        (sw.loose = true ∧ Switches.shiftState sw.state d s = 0x07)) := by
      rw [hs]; rintro (h | ⟨_, h⟩) <;> exact absurd h (by decide)
    rw [Switches.rotaryEdge_ccw sw d s hne hncw hs]
    exact ⟨rfl, Switches.ccwPosition_wrap sw hw h0 h1⟩

/-- C1 witness: a clockwise-completing edge on a concrete switch. -/
theorem c1_canonical_steps_witness :
    Switches.swReady.ch.length < Switches.swReady.channelSize ∧
    ((Switches.rotaryEdge Switches.swReady false true).ch
        = Switches.swReady.ch ++ [Switches.RotarySwitchValue.DirectionCW] ∧
      (Switches.rotaryEdge Switches.swReady false true).position
        = (Switches.swReady.position + 1) % Switches.swReady.max_positions) :=
  ⟨by decide,
    (c1_canonical_steps Switches.swReady false true (by decide) (by decide)
      (by decide) (by decide)).1 (by decide)⟩

/-- C2: with wrap enabled (the construction default), `maxPositions > 0`
and the position starting at `0`, the position stays in
`[0, maxPositions)` after any sequence of state-pin edges. -/
theorem c2_wrap_position_invariant (maxPositions : Int) (hM : 0 < maxPositions)
    (samples : List (Bool × Bool)) :
    0 ≤ (Switches.runRotary (Switches.NewRotarySwitch maxPositions) samples).position ∧
    (Switches.runRotary (Switches.NewRotarySwitch maxPositions) samples).position
      < maxPositions := by
  have h := Switches.runRotary_bounds samples (Switches.NewRotarySwitch maxPositions)
    rfl hM le_rfl hM
  exact ⟨h.2.1, h.2.2⟩

/-- C2 witness: one clockwise turn on a 24-position switch. -/
theorem c2_wrap_position_invariant_witness :
    (0 : Int) < 24 ∧
    (0 ≤ (Switches.runRotary (Switches.NewRotarySwitch 24) Switches.cwTurn).position ∧
      (Switches.runRotary (Switches.NewRotarySwitch 24) Switches.cwTurn).position < 24) :=
  ⟨by decide, c2_wrap_position_invariant 24 (by decide) Switches.cwTurn⟩

/-- C3: with wrap disabled, `maxPositions = 2` and position starting at `0`,
two clockwise turns drive the position to `2 = maxPositions`, exceeding the
claimed upper clamp `maxPositions - 1 = 1`: the code clamps the upper bound
to `max_positions` itself, contradicting the `Position()` documentation
("the returned value will be between zero and maxPositions-1"). -/
theorem c3_no_wrap_upper_clamp_overshoots :
    (Switches.runRotary (Switches.SetWrap (Switches.NewRotarySwitch 2) false)
        (Switches.cwTurn ++ Switches.cwTurn)).position = 2 ∧
    ¬ (Switches.runRotary (Switches.SetWrap (Switches.NewRotarySwitch 2) false)
        (Switches.cwTurn ++ Switches.cwTurn)).position ≤ 2 - 1 := by
  constructor <;> decide

/-- C4 counterexample: on a full channel, a qualifying clockwise pattern
(`0b0110` after the shift) leaves the position unchanged rather than
incrementing it, and a qualifying button transition (level low, last level
high) leaves the last button level unchanged rather than updating it: the
claim that internal state is still updated fails. -/
theorem c4_full_channel_claim_counterexample :
    Switches.shiftState Switches.swAtCapacity.state false true = 0x06 ∧
    Switches.swAtCapacity.ch.length = Switches.swAtCapacity.channelSize ∧
    (Switches.rotaryEdge Switches.swAtCapacity false true).position
      = Switches.swAtCapacity.position ∧
    ¬ (Switches.rotaryEdge Switches.swAtCapacity false true).position
      = Switches.swAtCapacity.position + 1 ∧
    (Switches.buttonEdge Switches.swAtCapacity false).last_button = true ∧
    ¬ (Switches.buttonEdge Switches.swAtCapacity false).last_button = false := by
  decide

/-- C4 (amended): when the channel already holds `channelSize` events, a
state-pin edge enqueues nothing and leaves the position and last button
level unchanged (only the shift register advances), and a button-pin edge
changes nothing at all; in particular the channel never grows beyond
capacity. -/
theorem c4_full_channel_drops_transition (sw : Switches.RotarySwitch) (d s l : Bool)
    (h : sw.ch.length = sw.channelSize) :
    (Switches.rotaryEdge sw d s).ch = sw.ch ∧
    (Switches.rotaryEdge sw d s).position = sw.position ∧
    (Switches.rotaryEdge sw d s).last_button = sw.last_button ∧
    Switches.buttonEdge sw l = sw := by
  rw [Switches.rotaryEdge_full sw d s h]
  refine ⟨rfl, rfl, rfl, ?_⟩
  unfold Switches.buttonEdge
  rw [if_neg (by omega)]

/-- C4 witness: the amended statement at the concrete full-channel switch. -/
theorem c4_full_channel_drops_transition_witness :
    Switches.swAtCapacity.ch.length = Switches.swAtCapacity.channelSize ∧
    ((Switches.rotaryEdge Switches.swAtCapacity false true).ch = Switches.swAtCapacity.ch ∧
      (Switches.rotaryEdge Switches.swAtCapacity false true).position
        = Switches.swAtCapacity.position ∧
      (Switches.rotaryEdge Switches.swAtCapacity false true).last_button
        = Switches.swAtCapacity.last_button ∧
      Switches.buttonEdge Switches.swAtCapacity false = Switches.swAtCapacity) :=
  ⟨by decide,
    c4_full_channel_drops_transition Switches.swAtCapacity false true false (by decide)⟩

/-- C5: for an edge (channel below capacity) whose shifted state is the
near-miss `0b0111`: with loose mode on, exactly one `DirectionCW` is
enqueued with the same clockwise position update as a canonical step and
the register is reset; with loose mode off, nothing happens beyond the
shift (no event, no reset).  The counter-clockwise pattern `0b0011` is
classified the same way whatever the loose flag is. -/
theorem c5_loose_near_miss (sw : Switches.RotarySwitch) (d s : Bool)
    (hcap : sw.ch.length < sw.channelSize) :
    (Switches.shiftState sw.state d s = 0x07 →
      (sw.loose = true →
        (Switches.rotaryEdge sw d s).ch = sw.ch ++ [Switches.RotarySwitchValue.DirectionCW] ∧
        (Switches.rotaryEdge sw d s).position = Switches.cwPosition sw ∧
        (Switches.rotaryEdge sw d s).state = Switches.stateInvalid) ∧
      (sw.loose = false →
        Switches.rotaryEdge sw d s = { sw with state := 0x07 })) ∧
    (Switches.shiftState sw.state d s = 0x03 →
      (Switches.rotaryEdge sw d s).ch = sw.ch ++ [Switches.RotarySwitchValue.DirectionCCW] ∧
      (Switches.rotaryEdge sw d s).position = Switches.ccwPosition sw) := by
  have hne : sw.ch.length ≠ sw.channelSize := Nat.ne_of_lt hcap
  constructor
  · intro hs
    constructor
    · intro hl
      rw [Switches.rotaryEdge_cw sw d s hne (Or.inr ⟨hl, hs⟩)]
      exact ⟨rfl, rfl, rfl⟩
    · intro hl
      have hncw : ¬ (Switches.shiftState sw.state d s = 0x06 ∨
          (sw.loose = true ∧ Switches.shiftState sw.state d s = 0x07)) := by
        rw [hs, hl]
        rintro (h | ⟨h, _⟩) <;> exact absurd h (by decide)
      rw [Switches.rotaryEdge_noise sw d s hne hncw (by rw [hs]; decide), hs]
  · intro hs
    have hncw : ¬ (Switches.shiftState sw.state d s = 0x06 ∨
        (sw.loose = true ∧ Switches.shiftState sw.state d s = 0x07)) := by
      rw [hs]
      rintro (h | ⟨_, h⟩) <;> exact absurd h (by decide)
    rw [Switches.rotaryEdge_ccw sw d s hne hncw hs]
    exact ⟨rfl, rfl⟩

/-- C5 witness: the near-miss edge on a concrete loose-mode switch. -/
theorem c5_loose_near_miss_witness :
    Switches.swReady.ch.length < Switches.swReady.channelSize ∧
    ((Switches.rotaryEdge Switches.swReady true true).ch
        = Switches.swReady.ch ++ [Switches.RotarySwitchValue.DirectionCW] ∧
      (Switches.rotaryEdge Switches.swReady true true).position
        = Switches.cwPosition Switches.swReady ∧
      (Switches.rotaryEdge Switches.swReady true true).state
        = Switches.stateInvalid) :=
  ⟨by decide,
    ((c5_loose_near_miss Switches.swReady true true (by decide)).1 (by decide)).1 rfl⟩

/-- C6: for a button-pin edge processed while the channel is below
capacity: a low sample with last level high enqueues exactly one
`ButtonPress`, a high sample with last level low enqueues exactly one
`ButtonRelease`, a sample equal to the last level enqueues nothing, and the
last button level always becomes the sample. -/
theorem c6_button_transitions (sw : Switches.RotarySwitch) (level : Bool)
    (hcap : sw.ch.length < sw.channelSize) :
    ((level = false ∧ sw.last_button = true) →
      (Switches.buttonEdge sw level).ch = sw.ch ++ [Switches.RotarySwitchValue.ButtonPress]) ∧
    ((level = true ∧ sw.last_button = false) →
      (Switches.buttonEdge sw level).ch = sw.ch ++ [Switches.RotarySwitchValue.ButtonRelease]) ∧
    (level = sw.last_button → (Switches.buttonEdge sw level).ch = sw.ch) ∧
    (Switches.buttonEdge sw level).last_button = level := by
  unfold Switches.buttonEdge
  rw [if_pos hcap]
  cases level <;> cases hlb : sw.last_button <;> simp [hlb]

/-- C6 witness: a low-to-high edge on a concrete switch. -/
theorem c6_button_transitions_witness :
    Switches.swReady.ch.length < Switches.swReady.channelSize ∧
    (Switches.buttonEdge Switches.swReady true).ch
      = Switches.swReady.ch ++ [Switches.RotarySwitchValue.ButtonRelease] ∧
    (Switches.buttonEdge Switches.swReady true).last_button = true := by
  have h := c6_button_transitions Switches.swReady true (by decide)
  exact ⟨by decide, h.2.1 ⟨rfl, rfl⟩, h.2.2.2⟩

/-- C7: each state-pin edge advances the shift register by exactly one
2-bit sample (`(state & 0b0011) << 2`, bit 0 from the data pin, bit 1 from
the state pin); while the channel is below capacity, every event-producing
value resets the register to the sentinel, and any other value leaves the
switch unchanged apart from the shift itself (no event, no reset). -/
theorem c7_shift_advance_and_reset (sw : Switches.RotarySwitch) (d s : Bool)
    (hcap : sw.ch.length < sw.channelSize) :
    Switches.shiftState sw.state d s
        = ((sw.state &&& 0x03) <<< 2
            ||| (if d then 0x01 else 0) ||| (if s then 0x02 else 0)) ∧
    ((Switches.shiftState sw.state d s = 0x06 ∨
        (sw.loose = true ∧ Switches.shiftState sw.state d s = 0x07) ∨
        Switches.shiftState sw.state d s = 0x03) →
      (Switches.rotaryEdge sw d s).state = Switches.stateInvalid) ∧
    (¬ (Switches.shiftState sw.state d s = 0x06 ∨
        (sw.loose = true ∧ Switches.shiftState sw.state d s = 0x07) ∨
        Switches.shiftState sw.state d s = 0x03) →
      Switches.rotaryEdge sw d s = { sw with state := Switches.shiftState sw.state d s }) := by
  have hne : sw.ch.length ≠ sw.channelSize := Nat.ne_of_lt hcap
  refine ⟨?_, ?_, ?_⟩
  · cases d <;> cases s <;> simp [Switches.shiftState, Nat.or_zero]
  · intro hp
    by_cases hcw : Switches.shiftState sw.state d s = 0x06 ∨
        (sw.loose = true ∧ Switches.shiftState sw.state d s = 0x07)
    · rw [Switches.rotaryEdge_cw sw d s hne hcw]
    · have h3 : Switches.shiftState sw.state d s = 0x03 := by
        rcases hp with h | h | h
        · exact absurd (Or.inl h) hcw
        · exact absurd (Or.inr h) hcw
        · exact h
      rw [Switches.rotaryEdge_ccw sw d s hne hcw h3]
  · intro hp
    push_neg at hp
    exact Switches.rotaryEdge_noise sw d s hne
      (by rintro (h | h) <;> [exact hp.1 h; exact hp.2.1 h.1 h.2]) hp.2.2

/-- C7 witness: an event-producing edge resets the register on a concrete
switch. -/
theorem c7_shift_advance_and_reset_witness :
    Switches.swReady.ch.length < Switches.swReady.channelSize ∧
    (Switches.rotaryEdge Switches.swReady false true).state = Switches.stateInvalid :=
  ⟨by decide,
    (c7_shift_advance_and_reset Switches.swReady false true (by decide)).2.1
      (Or.inl (by decide))⟩

/-- C8: from a freshly constructed switch with `maxPositions = 24` (wrap
enabled, loose mode enabled, channel capacity 16 by default), the sample
sequence of three clockwise turns followed by one counter-clockwise turn
yields exactly the events `[DirectionCW, DirectionCW, DirectionCW,
DirectionCCW]` and final position `2`. -/
theorem c8_three_cw_one_ccw_scenario :
    (Switches.runRotary (Switches.NewRotarySwitch 24)
        (Switches.cwTurn ++ Switches.cwTurn ++ Switches.cwTurn ++ Switches.ccwTurn)).ch
      = [Switches.RotarySwitchValue.DirectionCW, Switches.RotarySwitchValue.DirectionCW,
         Switches.RotarySwitchValue.DirectionCW, Switches.RotarySwitchValue.DirectionCCW] ∧
    (Switches.runRotary (Switches.NewRotarySwitch 24)
        (Switches.cwTurn ++ Switches.cwTurn ++ Switches.cwTurn ++ Switches.ccwTurn)).position
      = 2 := by
  constructor <;> decide

/-- C9: a freshly constructed switch has last button level low, so a first
button edge sampling high (the pull-up idle level) emits a `ButtonRelease`
even though no `ButtonPress` was ever emitted. -/
theorem c9_initial_release_without_press (maxPositions : Int) :
    (Switches.NewRotarySwitch maxPositions).last_button = false ∧
    (Switches.buttonEdge (Switches.NewRotarySwitch maxPositions) true).ch
      = [Switches.RotarySwitchValue.ButtonRelease] := by
  exact ⟨rfl, rfl⟩

/-- C10: no two consecutive state-pin edges both produce events: after an
edge that changed the channel, the shift register holds the sentinel, so
the next edge's shifted value lies in `0b1100 .. 0b1111` and enqueues
nothing. -/
theorem c10_no_consecutive_events (sw : Switches.RotarySwitch) (d s d2 s2 : Bool)
    (hev : (Switches.rotaryEdge sw d s).ch ≠ sw.ch) :
    (Switches.rotaryEdge (Switches.rotaryEdge sw d s) d2 s2).ch
      = (Switches.rotaryEdge sw d s).ch ∧
    0x0C ≤ Switches.shiftState (Switches.rotaryEdge sw d s).state d2 s2 ∧
    Switches.shiftState (Switches.rotaryEdge sw d s).state d2 s2 ≤ 0x0F := by
  have hst := Switches.rotaryEdge_event_resets sw d s hev
  refine ⟨(Switches.rotaryEdge_from_sentinel_no_event _ d2 s2 hst).1, ?_, ?_⟩ <;>
    rw [hst] <;> cases d2 <;> cases s2 <;> decide

/-- C10 witness: a clockwise-completing edge followed by any edge on a
concrete switch. -/
theorem c10_no_consecutive_events_witness :
    (Switches.rotaryEdge Switches.swReady false true).ch ≠ Switches.swReady.ch ∧
    (Switches.rotaryEdge (Switches.rotaryEdge Switches.swReady false true) true false).ch
      = (Switches.rotaryEdge Switches.swReady false true).ch :=
  ⟨by decide,
    (c10_no_consecutive_events Switches.swReady false true true false (by decide)).1⟩
